import Mathlib

/-!
Shallow embedding of the seaweedfs client library (package `swfsclient`).

The repository contains two variants of the client:
* the caching client (source file with `volumeLocationsCache`, `Download` /
  `DeleteFile` retry loops, and an `UploadSwFile` that honours the declared
  MIME type, the modification time and the size check), and
* the plain client (`swfsclient.go`, no cache, single-shot `Download` /
  `DeleteFile`, `UploadSwFile` hard-codes `application/octet-stream` and
  drops the result of `errors.New("wrong upload size")`).

Pure logic (identifier parsing, cache consultation, error classification,
server selection, retry control flow) is translated directly.  External
collaborators (HTTP transport, JSON decoding, `strconv` formatting) are
modelled as oracle inputs: each network call consumes one response value.
The helper types `VolumeLocations`, `Head` and `RandomPickForRead` live in a
model file of the repository that is not part of the sources given; they are
modelled from the spec where indicated.
-/

namespace Swfs

/-- A volume-server location as decoded from a master lookup response:
`url` is the internal (server-to-server) address, `publicUrl` the
client-facing one. -/
structure Location where
  url : String
  publicUrl : String
deriving Repr, DecidableEq, Inhabited

/-- `VolumeLocations` from the repository's model file: an ordered list of
locations for one volume. -/
abbrev VolumeLocations := List Location

/-- `LookupResult` as decoded from `/dir/lookup`: the locations plus an
optional error message (`""` meaning no error). -/
structure LookupResult where
  volumeLocations : VolumeLocations
  error : String
deriving Repr, DecidableEq, Inhabited

/-- Go `error` values produced by the client: `ErrFileNotFound` and
`errors.New`/`fmt.Errorf` messages.  Transport errors surfaced by the
`httpClient` are arbitrary values of this type. -/
inductive GoError where
  | fileNotFound
  | msg (s : String)
deriving Repr, DecidableEq

deriving instance DecidableEq for Except

/-- Go's `strings.Split` for a one-character separator: splits at every
occurrence of `sep`, keeping empty segments; the empty string yields
`[[]]`. -/
def splitChar (sep : Char) : List Char → List (List Char)
  | [] => [[]]
  | c :: rest =>
    if c = sep then [] :: splitChar sep rest
    else
      match splitChar sep rest with
      | [] => [[c]]
      | p :: ps => (c :: p) :: ps

/-- `getVolumeIDFromFileID` (also inlined in `LookupServerByFileID` of the
plain client): split on `,` when the id contains a comma, else on `/`;
reject unless the split yields exactly two parts; return the first part. -/
def getVolumeIDFromFileID (fileID : String) : Except GoError String :=
  let parts :=
    if fileID.toList.contains ',' then splitChar ',' fileID.toList
    else splitChar '/' fileID.toList
  if parts.length ≠ 2 then
    Except.error (GoError.msg ("Invalid fileID " ++ fileID))
  else
    Except.ok (String.mk (parts.headD []))

/-- The unexpired entries of the `go-cache` volume-locations cache, as a map
from volume ID to the stored set.  Expiry is abstracted: an expired entry is
simply absent. -/
def VLCache : Type := String → Option VolumeLocations

/-- `cache.Get` on the unexpired view. -/
def cacheGet (c : VLCache) (k : String) : Option VolumeLocations := c k

/-- `cache.Set` with the default expiration: overwrite the entry for `k`. -/
def cacheSet (c : VLCache) (k : String) (v : VolumeLocations) : VLCache :=
  fun q => if q = k then some v else c q

/-- Outcome of one `client.get` + `json.Unmarshal` round trip for
`/dir/lookup`: a transport error, an undecodable body, or a decoded
`LookupResult`. -/
inductive LookupResponse where
  | transportErr (e : GoError)
  | undecodable (e : GoError)
  | ok (r : LookupResult)
deriving Repr, DecidableEq

/-- `doLookup`: propagate transport/decode errors; a decoded result whose
`Error` field is non-empty becomes `errors.New(result.Error)`. -/
def doLookup (resp : LookupResponse) : Except GoError LookupResult :=
  match resp with
  | .transportErr e => Except.error e
  | .undecodable e => Except.error e
  | .ok r => if r.error ≠ "" then Except.error (GoError.msg r.error) else Except.ok r

/-- Result of one call of `GetVolumeLocationsFromFileID`: the returned value,
the cache afterwards, and whether a master lookup was performed
(`lookedUp = false` exactly when the call returned before reaching the
`doLookup` line). -/
structure ResolveOut where
  result : Except GoError VolumeLocations
  cache : VLCache
  lookedUp : Bool

/-- `GetVolumeLocationsFromFileID` of the caching client: parse the file id;
with `withCache` and a cache hit return the cached set at once; otherwise
look up at the master, fail with `ErrFileNotFound` on an empty location set,
and on success store the fresh set in the cache before returning it. -/
def GetVolumeLocationsFromFileID (fileID : String) (withCache : Bool)
    (cache : VLCache) (resp : LookupResponse) : ResolveOut :=
  match getVolumeIDFromFileID fileID with
  | .error e => ⟨Except.error e, cache, false⟩
  | .ok volumeID =>
    match withCache, cacheGet cache volumeID with
    | true, some vls => ⟨Except.ok vls, cache, false⟩
    | _, _ =>
      match doLookup resp with
      | .error e => ⟨Except.error e, cache, true⟩
      | .ok lr =>
        if lr.volumeLocations.length = 0 then
          ⟨Except.error GoError.fileNotFound, cache, true⟩
        else
          ⟨Except.ok lr.volumeLocations,
           cacheSet cache volumeID lr.volumeLocations, true⟩

/-- Modelled from the spec: `Head` of the repository's model file returns the
first (head) location of the set — write/delete selection always picks the
authoritative, first-listed replica. -/
def Head (vls : VolumeLocations) : Location := vls.headD default

/-- Modelled from the spec: `RandomPickForRead` of the repository's model
file picks uniformly at random among the locations; the random draw is made
explicit as the argument `r`, the pick being the entry at index
`r % length`. -/
def RandomPickForRead (vls : VolumeLocations) (r : Nat) : Location :=
  vls.getD (r % vls.length) default

/-- `LookupServerByFileID`: parse the file id (the plain client inlines the
same split-and-check, the caching client calls `getVolumeIDFromFileID`),
look up the volume at the master, fail with `ErrFileNotFound` on an empty
location set, then select: public URL of a random pick when `readonly`,
internal URL of the head otherwise. -/
def LookupServerByFileID (fileID : String) (resp : LookupResponse)
    (readonly : Bool) (r : Nat) : Except GoError String :=
  match getVolumeIDFromFileID fileID with
  | .error e => Except.error e
  | .ok _volumeID =>
    match doLookup resp with
    | .error e => Except.error e
    | .ok lookup =>
      if lookup.volumeLocations.length = 0 then Except.error GoError.fileNotFound
      else if readonly then
        Except.ok (RandomPickForRead lookup.volumeLocations r).publicUrl
      else
        Except.ok (Head lookup.volumeLocations).url

/-- One resolve-select-operate cycle of `Download`/`DeleteFile` as recorded
for the analysis: the `withCache` flag the cycle's resolve was called with,
whether that resolve performed a master lookup, and the URL of the data
operation issued against the selected volume server (`none` when the
resolve failed and no operation was issued). -/
structure CycleRec where
  withCache : Bool
  lookedUp : Bool
  opURL : Option String
deriving Repr, DecidableEq, Inhabited

/-- Oracle for one `Download` run: the master's response to the `k`-th
lookup performed, the `k`-th random draw, and the outcome of the `k`-th
volume-server download (the file name on success, the transport error
otherwise). -/
structure DLEnv where
  lookupResp : Nat → LookupResponse
  randomPick : Nat → Nat
  downloadResult : Nat → Except GoError String

/-- Loop body of `Download` (`for retry := 2; retry > 0; retry--`): resolve
(returning the resolve error at once on failure), build the file URL from a
random pick's public URL, download; on success return the file name, on
failure continue with `withCache = false`; when the counter is exhausted
return the last error. -/
def downloadLoop (fileID : String) (env : DLEnv) (retry : Nat)
    (withCache : Bool) (cache : VLCache) (k : Nat) (lastErr : GoError) :
    Except GoError String × List CycleRec :=
  match retry with
  | 0 => (Except.error lastErr, [])
  | retry' + 1 =>
    let ro := GetVolumeLocationsFromFileID fileID withCache cache (env.lookupResp k)
    match ro.result with
    | .error e => (Except.error e, [⟨withCache, ro.lookedUp, none⟩])
    | .ok vls =>
      let fileURL :=
        "http://" ++ (RandomPickForRead vls (env.randomPick k)).publicUrl ++ "/" ++ fileID
      match env.downloadResult k with
      | .ok fileName => (Except.ok fileName, [⟨withCache, ro.lookedUp, some fileURL⟩])
      | .error e =>
        let rest := downloadLoop fileID env retry' false ro.cache (k + 1) e
        (rest.1, ⟨withCache, ro.lookedUp, some fileURL⟩ :: rest.2)

/-- `Download` of the caching client: two-bounded retry loop starting with
`withCache = true`. -/
def Download (fileID : String) (cache : VLCache) (env : DLEnv) :
    Except GoError String × List CycleRec :=
  downloadLoop fileID env 2 true cache 0 (GoError.msg "")

/-- Oracle for one `DeleteFile` run: the master's response to the `k`-th
lookup performed and the outcome of the `k`-th volume-server delete. -/
structure DelEnv where
  lookupResp : Nat → LookupResponse
  deleteResult : Nat → Except GoError Unit

/-- Loop body of `DeleteFile`: like `downloadLoop`, but the file URL is
built from the head location's internal URL and the data operation is a
delete; `none` is returned on success. -/
def deleteLoop (fileID : String) (env : DelEnv) (retry : Nat)
    (withCache : Bool) (cache : VLCache) (k : Nat) (lastErr : GoError) :
    Option GoError × List CycleRec :=
  match retry with
  | 0 => (some lastErr, [])
  | retry' + 1 =>
    let ro := GetVolumeLocationsFromFileID fileID withCache cache (env.lookupResp k)
    match ro.result with
    | .error e => (some e, [⟨withCache, ro.lookedUp, none⟩])
    | .ok vls =>
      let fileURL := "http://" ++ (Head vls).url ++ "/" ++ fileID
      match env.deleteResult k with
      | .ok _ => (none, [⟨withCache, ro.lookedUp, some fileURL⟩])
      | .error e =>
        let rest := deleteLoop fileID env retry' false ro.cache (k + 1) e
        (rest.1, ⟨withCache, ro.lookedUp, some fileURL⟩ :: rest.2)

/-- `DeleteFile` of the caching client: two-bounded retry loop starting
with `withCache = true`. -/
def DeleteFile (fileID : String) (cache : VLCache) (env : DelEnv) :
    Option GoError × List CycleRec :=
  deleteLoop fileID env 2 true cache 0 (GoError.msg "")

/-- `AssignResult` as decoded from `/dir/assign`. -/
structure AssignResult where
  fileID : String
  url : String
  publicUrl : String
  count : Nat
  error : String
deriving Repr, DecidableEq, Inhabited

/-- Outcome of the `client.get` + `json.Unmarshal` round trip for
`/dir/assign`: a transport error, an undecodable body (with the decoder's
message and the raw body), or a decoded `AssignResult`. -/
inductive AssignResponse where
  | transportErr (e : GoError)
  | undecodable (decodeMsg : String) (rawBody : String)
  | ok (r : AssignResult)
deriving Repr, DecidableEq

/-- The message built by `fmt.Errorf` when the `/dir/assign` body cannot be
decoded: it embeds the decode error and the raw body. -/
def assignDecodeErrMsg (decodeMsg rawBody : String) : String :=
  "/dir/assign result JSON unmarshal error:" ++ decodeMsg ++ ", json:" ++ rawBody

/-- `Assign`: propagate transport errors; wrap an undecodable body in the
diagnostic message; a decoded result with `Count == 0` becomes
`errors.New(result.Error)`. -/
def Assign (resp : AssignResponse) : Except GoError AssignResult :=
  match resp with
  | .transportErr e => Except.error e
  | .undecodable m body => Except.error (GoError.msg (assignDecodeErrMsg m body))
  | .ok r =>
    if r.count = 0 then Except.error (GoError.msg r.error) else Except.ok r

/-- The pure fields of an `SwFile` upload descriptor (the content stream and
its reader are external). -/
structure SwFile where
  fileName : String
  fileSize : Int
  mimeType : String
  modTime : Int
  collection : String
  ttl : String
  server : String
  fileID : String
  etag : String
deriving Repr, DecidableEq, Inhabited

/-- The parameters of the one volume-server upload call issued by
`UploadSwFile`: the target host (the assigned internal URL), the resource
path (the file id targeted), the `ts` request parameter when one is set,
and the multipart file name and MIME type. -/
structure UploadCall where
  host : String
  path : String
  tsArg : Option String
  fileName : String
  mimeType : String
deriving Repr, DecidableEq, Inhabited

/-- Outcome of the volume-server upload call plus response decoding: a
transport error, an undecodable body, or a decoded `{size, etag}`. -/
inductive UploadResponse where
  | transportErr (e : GoError)
  | undecodable (e : GoError)
  | ok (size : Int) (etag : String)
deriving Repr, DecidableEq

/-- `UploadSwFile` of the caching client: assign; set the `ts` parameter
when `ModTime != 0`; write the assigned file id into the descriptor and
default its MIME type to `application/octet-stream` when empty; upload to
the assigned host targeting the file id; decode `{size, etag}`; fail with
`errors.New("wrong upload size")` when the reported size differs from the
declared `FileSize`; only then store the etag in the descriptor.  Returns
the overall outcome, the descriptor's final state, and the parameters of
the upload call when one was issued. -/
def UploadSwFile (f : SwFile) (aresp : AssignResponse) (uresp : UploadResponse) :
    Except GoError AssignResult × SwFile × Option UploadCall :=
  match Assign aresp with
  | .error e => (Except.error e, f, none)
  | .ok ar =>
    let ts : Option String := if f.modTime ≠ 0 then some (toString f.modTime) else none
    let f1 : SwFile :=
      { f with
        fileID := ar.fileID,
        mimeType := if f.mimeType.length = 0 then "application/octet-stream" else f.mimeType }
    let call : UploadCall := ⟨ar.url, f1.fileID, ts, f1.fileName, f1.mimeType⟩
    match uresp with
    | .transportErr e => (Except.error e, f1, some call)
    | .undecodable e => (Except.error e, f1, some call)
    | .ok size etag =>
      if f1.fileSize ≠ size then
        (Except.error (GoError.msg "wrong upload size"), f1, some call)
      else
        (Except.ok ar, { f1 with etag := etag }, some call)

/-- `UploadSwFile` of the plain client (`swfsclient.go`): assign; upload to
the assigned host targeting the assigned file id with no request
parameters and the hard-coded MIME type `application/octet-stream`; decode
`{size, etag}`; the statement `errors.New("wrong upload size")` discards
its result, so a size mismatch does not fail the call, and the descriptor
is never written to. -/
def UploadSwFileOld (f : SwFile) (aresp : AssignResponse) (uresp : UploadResponse) :
    Except GoError AssignResult × SwFile × Option UploadCall :=
  match Assign aresp with
  | .error e => (Except.error e, f, none)
  | .ok ar =>
    let call : UploadCall := ⟨ar.url, ar.fileID, none, f.fileName, "application/octet-stream"⟩
    match uresp with
    | .transportErr e => (Except.error e, f, some call)
    | .undecodable e => (Except.error e, f, some call)
    | .ok _size _etag => (Except.ok ar, f, some call)

/-- A master HTTP request as a path plus its query parameters. -/
structure HttpReq where
  path : String
  args : List (String × String)
deriving Repr, DecidableEq, Inhabited

/-- The constant `ParamVacuumGarbageThreshold` of `common.go`. -/
def ParamVacuumGarbageThreshold : String := "GarbageThreshold"

/-- The request sent by `GC`: `url.Values{"garbageThreshold": ...}` against
`/vol/vacuum`.  The threshold value itself is formatted by the external
`strconv.FormatFloat` and enters as the pre-formatted string. -/
def GCRequest (thresholdStr : String) : HttpReq :=
  { path := "/vol/vacuum", args := [("garbageThreshold", thresholdStr)] }

/-- The separator `getVolumeIDFromFileID` splits on: `,` when the id
contains a comma, `/` otherwise. -/
def chosenSep (s : String) : Char :=
  if s.toList.contains ',' then ',' else '/'

/-- Every entry of the cache holds a non-empty location set. -/
def cacheNonempty (c : VLCache) : Prop :=
  ∀ k vls, c k = some vls → vls ≠ []

/-! ## Theorems -/

theorem splitChar_ne_nil (sep : Char) (l : List Char) : splitChar sep l ≠ [] := by
  induction l with
  | nil => simp [splitChar]
  | cons c rest ih =>
    by_cases h : c = sep
    · simp [splitChar, h]
    · simp only [splitChar, if_neg h]
      cases hs : splitChar sep rest with
      | nil => exact absurd hs ih
      | cons p ps => simp

theorem splitChar_length (sep : Char) (l : List Char) :
    (splitChar sep l).length = l.count sep + 1 := by
  induction l with
  | nil => simp [splitChar]
  | cons c rest ih =>
    by_cases h : c = sep
    · subst h
      simp [splitChar, ih, List.count_cons]
    · cases hs : splitChar sep rest with
      | nil => exact absurd hs (splitChar_ne_nil sep rest)
      | cons p ps =>
        rw [hs] at ih
        simp only [splitChar, if_neg h, hs, List.length_cons] at ih ⊢
        rw [List.count_cons]
        simp [h, Ne.symm h, ih]

theorem splitChar_head (sep : Char) (l : List Char) :
    (splitChar sep l).headD [] = l.takeWhile (fun c => c != sep) := by
  induction l with
  | nil => simp [splitChar]
  | cons c rest ih =>
    by_cases h : c = sep
    · subst h
      simp [splitChar, List.takeWhile]
    · cases hs : splitChar sep rest with
      | nil => exact absurd hs (splitChar_ne_nil sep rest)
      | cons p ps =>
        rw [hs] at ih
        simp only [splitChar, if_neg h, hs, List.headD_cons] at ih ⊢
        have hb : (c != sep) = true := by simp [h]
        simp [List.takeWhile, hb, ih]

theorem getVolumeIDFromFileID_eq_split (s : String) :
    getVolumeIDFromFileID s =
      (if (splitChar (chosenSep s) s.toList).length ≠ 2 then
        Except.error (GoError.msg ("Invalid fileID " ++ s))
      else Except.ok (String.mk ((splitChar (chosenSep s) s.toList).headD []))) := by
  unfold getVolumeIDFromFileID chosenSep
  by_cases h : ',' ∈ s.data
  · simp [h]
  · simp [h]

/-- C3: the claim requires parsing to fail on every string with an empty
segment; the code only checks that the split has exactly two parts, so
`"3,"` — whose split on `,` is `["3", ""]`, with an empty second segment —
parses successfully instead of failing with `InvalidIdentifier`. -/
theorem claim_C3_counterexample :
    splitChar ',' "3,".toList = [['3'], []] ∧
    getVolumeIDFromFileID "3," = Except.ok "3" := by
  constructor
  · decide
  · decide

/-- C3 (amended): parsing splits on `,` when the string contains a comma
and otherwise on `/`; it succeeds exactly when the chosen separator occurs
exactly once — the two segments may be empty — returning the volume ID
(the part before the separator), and fails with the invalid-identifier
error for every other string. -/
theorem claim_C3_amended (s : String) :
    (s.toList.count (chosenSep s) = 1 →
      getVolumeIDFromFileID s =
        Except.ok (String.mk (s.toList.takeWhile (fun c => c != chosenSep s)))) ∧
    (s.toList.count (chosenSep s) ≠ 1 →
      getVolumeIDFromFileID s = Except.error (GoError.msg ("Invalid fileID " ++ s))) := by
  constructor
  · intro h1
    have hcond : ¬ ((s.toList.count (chosenSep s) + 1) ≠ 2) := by omega
    rw [getVolumeIDFromFileID_eq_split, splitChar_length, if_neg hcond, splitChar_head]
  · intro h1
    have hcond : (s.toList.count (chosenSep s) + 1) ≠ 2 := by omega
    rw [getVolumeIDFromFileID_eq_split, splitChar_length, if_pos hcond]

theorem claim_C3_amended_witness :
    getVolumeIDFromFileID "3,abc" = Except.ok "3" ∧
    getVolumeIDFromFileID "a/b/c" = Except.error (GoError.msg "Invalid fileID a/b/c") := by
  constructor
  · rw [(claim_C3_amended "3,abc").1 (by decide)]
    decide
  · exact (claim_C3_amended "a/b/c").2 (by decide)

/-- C9: the claim requires the garbage-collection threshold to be sent
under the parameter named exactly `GarbageThreshold`; the request `GC`
builds sends it under `garbageThreshold` (lower-case `g`), which differs
from the constant `ParamVacuumGarbageThreshold` of `common.go`. -/
theorem claim_C9_counterexample :
    (GCRequest "0.3").args.map Prod.fst = ["garbageThreshold"] ∧
    "garbageThreshold" ≠ ParamVacuumGarbageThreshold := by
  constructor
  · rfl
  · decide

/-- C9 (amended): `GC` sends its threshold value to the master's
`/vol/vacuum` endpoint under the request parameter named exactly
`garbageThreshold`; the constant `ParamVacuumGarbageThreshold`
(`"GarbageThreshold"`) declared in `common.go` is not the name used. -/
theorem claim_C9_amended (thresholdStr : String) :
    (GCRequest thresholdStr).path = "/vol/vacuum" ∧
    (GCRequest thresholdStr).args = [("garbageThreshold", thresholdStr)] ∧
    (GCRequest thresholdStr).args.map Prod.fst ≠ [ParamVacuumGarbageThreshold] := by
  refine ⟨rfl, rfl, ?_⟩
  intro h
  simp only [GCRequest, List.map_cons, List.map_nil] at h
  have := List.head_eq_of_cons_eq h
  exact absurd this (by decide)

/-- C7: an assign response decoding to `count = 0` yields
`errors.New(result.Error)` — a failure carrying the response's error
message, never a success — and an undecodable body yields a decode error
whose message has the raw response body embedded (as a suffix). -/
theorem claim_C7 (r : AssignResult) (decodeMsg rawBody : String) :
    (r.count = 0 →
      Assign (AssignResponse.ok r) = Except.error (GoError.msg r.error)) ∧
    (∀ res, Assign (AssignResponse.ok r) = Except.ok res → r.count ≠ 0 ∧ res = r) ∧
    (∃ p, Assign (AssignResponse.undecodable decodeMsg rawBody) =
      Except.error (GoError.msg (p ++ rawBody))) := by
  refine ⟨?_, ?_, ?_⟩
  · intro h
    simp [Assign, h]
  · intro res h
    by_cases hc : r.count = 0
    · simp [Assign, hc] at h
    · simp [Assign, hc] at h
      exact ⟨hc, h.symm⟩
  · exact ⟨"/dir/assign result JSON unmarshal error:" ++ decodeMsg ++ ", json:", rfl⟩

theorem claim_C7_witness :
    Assign (AssignResponse.ok ⟨"", "", "", 0, "No free volumes left!"⟩) =
      Except.error (GoError.msg "No free volumes left!") ∧
    (∃ p, Assign (AssignResponse.undecodable "unexpected end of JSON input" "<html>502</html>") =
      Except.error (GoError.msg (p ++ "<html>502</html>"))) := by
  constructor
  · exact (claim_C7 ⟨"", "", "", 0, "No free volumes left!"⟩ "" "").1 rfl
  · exact (claim_C7 ⟨"", "", "", 0, ""⟩ "unexpected end of JSON input" "<html>502</html>").2.2

/-- C2: with `withCache = true` and an unexpired cache entry for the parsed
volume ID, the cached set is returned, the cache is unchanged and no master
lookup is made; with `withCache = false` a master lookup is always
performed; and whenever a lookup is performed and succeeds, the cache entry
for the volume ID is overwritten with the fresh set, which is returned. -/
theorem claim_C2 (fileID vid : String) (cache : VLCache) (resp : LookupResponse)
    (hp : getVolumeIDFromFileID fileID = Except.ok vid) :
    (∀ vls, cacheGet cache vid = some vls →
      GetVolumeLocationsFromFileID fileID true cache resp =
        ⟨Except.ok vls, cache, false⟩) ∧
    ((GetVolumeLocationsFromFileID fileID false cache resp).lookedUp = true) ∧
    (∀ lr, doLookup resp = Except.ok lr → lr.volumeLocations ≠ [] →
      ∀ wc, (GetVolumeLocationsFromFileID fileID wc cache resp).lookedUp = true →
        (GetVolumeLocationsFromFileID fileID wc cache resp).result =
          Except.ok lr.volumeLocations ∧
        cacheGet (GetVolumeLocationsFromFileID fileID wc cache resp).cache vid =
          some lr.volumeLocations) := by
  refine ⟨?_, ?_, ?_⟩
  · intro vls hc
    simp only [GetVolumeLocationsFromFileID, hp, hc]
  · simp only [GetVolumeLocationsFromFileID, hp]
    cases hd : doLookup resp with
    | error e => simp
    | ok lr =>
      by_cases hlen : lr.volumeLocations.length = 0
      · simp [hlen]
      · simp [hlen]
  · intro lr hl hne wc hlook
    have hlen : ¬ lr.volumeLocations.length = 0 := by
      simpa [List.length_eq_zero] using hne
    cases wc with
    | false =>
      simp only [GetVolumeLocationsFromFileID, hp, hl] at hlook ⊢
      simp [hlen, cacheGet, cacheSet]
    | true =>
      cases hcg : cacheGet cache vid with
      | some vls =>
        simp only [GetVolumeLocationsFromFileID, hp, hcg] at hlook
        exact absurd hlook (by simp)
      | none =>
        simp only [GetVolumeLocationsFromFileID, hp, hcg, hl] at hlook ⊢
        simp [hlen, cacheGet, cacheSet]

theorem claim_C2_witness :
    (GetVolumeLocationsFromFileID "3,ab" true
        (fun k => if k = "3" then some [⟨"u", "p"⟩] else none)
        (LookupResponse.ok ⟨[⟨"m", "n"⟩], ""⟩) =
      ⟨Except.ok [⟨"u", "p"⟩],
       (fun k => if k = "3" then some [⟨"u", "p"⟩] else none), false⟩) ∧
    cacheGet (GetVolumeLocationsFromFileID "3,ab" false
        (fun _ => none) (LookupResponse.ok ⟨[⟨"m", "n"⟩], ""⟩)).cache "3" =
      some [⟨"m", "n"⟩] := by
  constructor
  · exact (claim_C2 "3,ab" "3"
      (fun k => if k = "3" then some [⟨"u", "p"⟩] else none)
      (LookupResponse.ok ⟨[⟨"m", "n"⟩], ""⟩) rfl).1 [⟨"u", "p"⟩] rfl
  · have h := claim_C2 "3,ab" "3" (fun _ => none)
      (LookupResponse.ok ⟨[⟨"m", "n"⟩], ""⟩) rfl
    exact (h.2.2 ⟨[⟨"m", "n"⟩], ""⟩ rfl (by decide) false h.2.1).2

/-- C4: a master lookup that returns an empty location set makes both
resolvers fail with `ErrFileNotFound`; an empty set is never returned as a
successful result; and resolving preserves the invariant that every cached
set is non-empty. -/
theorem claim_C4 (fileID : String) (wc : Bool) (cache : VLCache)
    (resp : LookupResponse) (readonly : Bool) (r : Nat)
    (hc : cacheNonempty cache) :
    (∀ lr, doLookup resp = Except.ok lr → lr.volumeLocations = [] →
      (GetVolumeLocationsFromFileID fileID wc cache resp).lookedUp = true →
      (GetVolumeLocationsFromFileID fileID wc cache resp).result =
        Except.error GoError.fileNotFound) ∧
    (∀ lr vid, doLookup resp = Except.ok lr → lr.volumeLocations = [] →
      getVolumeIDFromFileID fileID = Except.ok vid →
      LookupServerByFileID fileID resp readonly r =
        Except.error GoError.fileNotFound) ∧
    (∀ vls, (GetVolumeLocationsFromFileID fileID wc cache resp).result =
        Except.ok vls → vls ≠ []) ∧
    cacheNonempty (GetVolumeLocationsFromFileID fileID wc cache resp).cache := by
  refine ⟨?_, ?_, ?_, ?_⟩
  · intro lr hl hempty hlook
    have hlen : lr.volumeLocations.length = 0 := by simp [hempty]
    cases hp : getVolumeIDFromFileID fileID with
    | error e =>
      simp only [GetVolumeLocationsFromFileID, hp] at hlook
      exact absurd hlook (by simp)
    | ok vid =>
      cases wc with
      | false => simp [GetVolumeLocationsFromFileID, hp, hl, hlen]
      | true =>
        cases hcg : cacheGet cache vid with
        | some vls =>
          simp only [GetVolumeLocationsFromFileID, hp, hcg] at hlook
          exact absurd hlook (by simp)
        | none => simp [GetVolumeLocationsFromFileID, hp, hcg, hl, hlen]
  · intro lr vid hl hempty hpv
    have hlen : lr.volumeLocations.length = 0 := by simp [hempty]
    simp [LookupServerByFileID, hpv, hl, hlen]
  · intro vls hres
    cases hp : getVolumeIDFromFileID fileID with
    | error e =>
      simp only [GetVolumeLocationsFromFileID, hp] at hres
      exact absurd hres (by simp)
    | ok vid =>
      cases hd : doLookup resp with
      | error e =>
        cases wc with
        | false =>
          simp only [GetVolumeLocationsFromFileID, hp, hd] at hres
          exact absurd hres (by simp)
        | true =>
          cases hcg : cacheGet cache vid with
          | some vls' =>
            simp only [GetVolumeLocationsFromFileID, hp, hcg] at hres
            simp only [Except.ok.injEq] at hres
            exact hres ▸ hc vid vls' hcg
          | none =>
            simp only [GetVolumeLocationsFromFileID, hp, hcg, hd] at hres
            exact absurd hres (by simp)
      | ok lr =>
        by_cases hlen : lr.volumeLocations.length = 0
        · cases wc with
          | false =>
            simp only [GetVolumeLocationsFromFileID, hp, hd, if_pos hlen] at hres
            exact absurd hres (by simp)
          | true =>
            cases hcg : cacheGet cache vid with
            | some vls' =>
              simp only [GetVolumeLocationsFromFileID, hp, hcg] at hres
              simp only [Except.ok.injEq] at hres
              exact hres ▸ hc vid vls' hcg
            | none =>
              simp only [GetVolumeLocationsFromFileID, hp, hcg, hd, if_pos hlen] at hres
              exact absurd hres (by simp)
        · have hne : lr.volumeLocations ≠ [] := by
            simpa [List.length_eq_zero] using hlen
          cases wc with
          | false =>
            simp only [GetVolumeLocationsFromFileID, hp, hd, if_neg hlen] at hres
            simp only [Except.ok.injEq] at hres
            exact hres ▸ hne
          | true =>
            cases hcg : cacheGet cache vid with
            | some vls' =>
              simp only [GetVolumeLocationsFromFileID, hp, hcg] at hres
              simp only [Except.ok.injEq] at hres
              exact hres ▸ hc vid vls' hcg
            | none =>
              simp only [GetVolumeLocationsFromFileID, hp, hcg, hd, if_neg hlen] at hres
              simp only [Except.ok.injEq] at hres
              exact hres ▸ hne
  · cases hp : getVolumeIDFromFileID fileID with
    | error e => simpa only [GetVolumeLocationsFromFileID, hp] using hc
    | ok vid =>
      cases hd : doLookup resp with
      | error e =>
        cases wc with
        | false => simpa only [GetVolumeLocationsFromFileID, hp, hd] using hc
        | true =>
          cases hcg : cacheGet cache vid with
          | some vls' => simpa only [GetVolumeLocationsFromFileID, hp, hcg] using hc
          | none => simpa only [GetVolumeLocationsFromFileID, hp, hcg, hd] using hc
      | ok lr =>
        by_cases hlen : lr.volumeLocations.length = 0
        · cases wc with
          | false =>
            simpa only [GetVolumeLocationsFromFileID, hp, hd, if_pos hlen] using hc
          | true =>
            cases hcg : cacheGet cache vid with
            | some vls' => simpa only [GetVolumeLocationsFromFileID, hp, hcg] using hc
            | none =>
              simpa only [GetVolumeLocationsFromFileID, hp, hcg, hd, if_pos hlen] using hc
        · have hne : lr.volumeLocations ≠ [] := by
            simpa [List.length_eq_zero] using hlen
          have hset : cacheNonempty (cacheSet cache vid lr.volumeLocations) := by
            intro k vls' hk
            simp only [cacheSet] at hk
            by_cases hkv : k = vid
            · simp only [if_pos hkv] at hk
              cases hk
              exact hne
            · simp only [if_neg hkv] at hk
              exact hc k vls' hk
          cases wc with
          | false =>
            simpa only [GetVolumeLocationsFromFileID, hp, hd, if_neg hlen] using hset
          | true =>
            cases hcg : cacheGet cache vid with
            | some vls' => simpa only [GetVolumeLocationsFromFileID, hp, hcg] using hc
            | none =>
              simpa only [GetVolumeLocationsFromFileID, hp, hcg, hd, if_neg hlen] using hset

theorem claim_C4_witness :
    (GetVolumeLocationsFromFileID "3,ab" false (fun _ => none)
        (LookupResponse.ok ⟨[], ""⟩)).result = Except.error GoError.fileNotFound ∧
    LookupServerByFileID "3,ab" (LookupResponse.ok ⟨[], ""⟩) true 0 =
      Except.error GoError.fileNotFound := by
  have h := claim_C4 "3,ab" false (fun _ => none) (LookupResponse.ok ⟨[], ""⟩) true 0
    (fun _ _ hk => Option.noConfusion hk)
  constructor
  · exact h.1 ⟨[], ""⟩ rfl rfl (by decide)
  · exact h.2.1 ⟨[], ""⟩ "3" rfl rfl rfl

/-- C5: for a non-empty resolved location set, write/delete selection
(`readonly = false`, and the `DeleteFile` cycle) deterministically yields
the internal URL of the first (head) location, while read selection
(`readonly = true`, and the `Download` cycle) yields the public URL of a
member of the set, the random draw hitting each member uniformly (each
index is picked by exactly one draw residue). -/
theorem claim_C5 (fileID : String) (resp : LookupResponse) (lr : LookupResult)
    (r : Nat) (vid : String)
    (hp : getVolumeIDFromFileID fileID = Except.ok vid)
    (hl : doLookup resp = Except.ok lr)
    (hne : lr.volumeLocations ≠ []) :
    (∃ x rest, lr.volumeLocations = x :: rest ∧
      LookupServerByFileID fileID resp false r = Except.ok x.url) ∧
    (∃ loc ∈ lr.volumeLocations,
      LookupServerByFileID fileID resp true r = Except.ok loc.publicUrl) ∧
    (∀ q, q < lr.volumeLocations.length →
      RandomPickForRead lr.volumeLocations q =
        lr.volumeLocations.getD q default) ∧
    (∀ i, i < lr.volumeLocations.length →
      ((Finset.range lr.volumeLocations.length).filter
        (fun q => q % lr.volumeLocations.length = i)).card = 1) ∧
    (∀ (cache : VLCache) (env : DLEnv) (vls0 : VolumeLocations),
      (GetVolumeLocationsFromFileID fileID true cache (env.lookupResp 0)).result =
        Except.ok vls0 →
      ∃ l0 rest, (Download fileID cache env).2 =
        ⟨true, l0, some ("http://" ++
          (RandomPickForRead vls0 (env.randomPick 0)).publicUrl ++ "/" ++ fileID)⟩ :: rest) ∧
    (∀ (cache : VLCache) (env : DelEnv) (vls0 : VolumeLocations),
      (GetVolumeLocationsFromFileID fileID true cache (env.lookupResp 0)).result =
        Except.ok vls0 →
      ∃ l0 rest, (DeleteFile fileID cache env).2 =
        ⟨true, l0, some ("http://" ++ (Head vls0).url ++ "/" ++ fileID)⟩ :: rest) := by
  have hlen : ¬ lr.volumeLocations.length = 0 := by
    simpa [List.length_eq_zero] using hne
  refine ⟨?_, ?_, ?_, ?_, ?_, ?_⟩
  · obtain ⟨x, rest, hx⟩ : ∃ x rest, lr.volumeLocations = x :: rest := by
      cases hv : lr.volumeLocations with
      | nil => exact absurd hv hne
      | cons x rest => exact ⟨x, rest, rfl⟩
    refine ⟨x, rest, hx, ?_⟩
    simp [LookupServerByFileID, hp, hl, hlen, Head, hx]
  · have hlt : r % lr.volumeLocations.length < lr.volumeLocations.length :=
      Nat.mod_lt _ (Nat.pos_of_ne_zero hlen)
    refine ⟨RandomPickForRead lr.volumeLocations r, ?_, ?_⟩
    · rw [RandomPickForRead, List.getD_eq_getElem _ _ hlt]
      exact List.getElem_mem hlt
    · simp [LookupServerByFileID, hp, hl, hlen]
  · intro q hq
    rw [RandomPickForRead, Nat.mod_eq_of_lt hq]
  · intro i hi
    have hfil : (Finset.range lr.volumeLocations.length).filter
        (fun q => q % lr.volumeLocations.length = i) = {i} := by
      ext q
      simp only [Finset.mem_filter, Finset.mem_range, Finset.mem_singleton]
      constructor
      · rintro ⟨hq, hmod⟩
        rwa [Nat.mod_eq_of_lt hq] at hmod
      · rintro rfl
        exact ⟨hi, Nat.mod_eq_of_lt hi⟩
    rw [hfil, Finset.card_singleton]
  · intro cache env vls0 h0
    simp only [Download, downloadLoop, h0]
    cases env.downloadResult 0 with
    | ok fileName => exact ⟨_, _, rfl⟩
    | error e => exact ⟨_, _, rfl⟩
  · intro cache env vls0 h0
    simp only [DeleteFile, deleteLoop, h0]
    cases env.deleteResult 0 with
    | ok u => exact ⟨_, _, rfl⟩
    | error e => exact ⟨_, _, rfl⟩

theorem claim_C5_witness :
    (∃ x rest, ([⟨"u1", "p1"⟩, ⟨"u2", "p2"⟩] : VolumeLocations) = x :: rest ∧
      LookupServerByFileID "3,ab"
        (LookupResponse.ok ⟨[⟨"u1", "p1"⟩, ⟨"u2", "p2"⟩], ""⟩) false 3 =
        Except.ok x.url) ∧
    (∃ loc ∈ ([⟨"u1", "p1"⟩, ⟨"u2", "p2"⟩] : VolumeLocations),
      LookupServerByFileID "3,ab"
        (LookupResponse.ok ⟨[⟨"u1", "p1"⟩, ⟨"u2", "p2"⟩], ""⟩) true 3 =
        Except.ok loc.publicUrl) := by
  have h := claim_C5 "3,ab"
    (LookupResponse.ok ⟨[⟨"u1", "p1"⟩, ⟨"u2", "p2"⟩], ""⟩)
    ⟨[⟨"u1", "p1"⟩, ⟨"u2", "p2"⟩], ""⟩ 3 "3" rfl rfl (by decide)
  exact ⟨h.1, h.2.1⟩

/-- C6: the caching client's `UploadSwFile` fails with the
"wrong upload size" error and leaves the descriptor's etag unset when the
server reports size 90 for a declared size of 100, as the claim states;
but the plain client's `UploadSwFile` (`swfsclient.go`) discards the
result of `errors.New("wrong upload size")` and returns success on the
same input, contradicting the claim. -/
theorem claim_C6_divergence :
    (UploadSwFileOld ⟨"a.txt", 100, "text/plain", 0, "", "", "", "", ""⟩
        (AssignResponse.ok ⟨"3,01637037d6", "127.0.0.1:8080", "localhost:8080", 1, ""⟩)
        (UploadResponse.ok 90 "1d3b")).1 =
      Except.ok ⟨"3,01637037d6", "127.0.0.1:8080", "localhost:8080", 1, ""⟩ ∧
    (UploadSwFile ⟨"a.txt", 100, "text/plain", 0, "", "", "", "", ""⟩
        (AssignResponse.ok ⟨"3,01637037d6", "127.0.0.1:8080", "localhost:8080", 1, ""⟩)
        (UploadResponse.ok 90 "1d3b")).1 =
      Except.error (GoError.msg "wrong upload size") ∧
    (UploadSwFile ⟨"a.txt", 100, "text/plain", 0, "", "", "", "", ""⟩
        (AssignResponse.ok ⟨"3,01637037d6", "127.0.0.1:8080", "localhost:8080", 1, ""⟩)
        (UploadResponse.ok 90 "1d3b")).2.1.etag = "" := by
  refine ⟨rfl, by decide, by decide⟩

/-- C8: the claim requires every `UploadSwFile` upload to carry the
descriptor's declared MIME type and a `ts` hint when `ModTime` is nonzero;
the plain client's `UploadSwFile` uploads with the hard-coded
`application/octet-stream` and no `ts` parameter even for a descriptor
declaring `text/plain` and `ModTime = 5`. -/
theorem claim_C8_counterexample :
    (UploadSwFileOld ⟨"a.txt", 3, "text/plain", 5, "", "", "", "", ""⟩
        (AssignResponse.ok ⟨"3,01", "127.0.0.1:8080", "localhost:8080", 1, ""⟩)
        (UploadResponse.ok 3 "e")).2.2 =
      some ⟨"127.0.0.1:8080", "3,01", none, "a.txt", "application/octet-stream"⟩ ∧
    "application/octet-stream" ≠ "text/plain" ∧ (5 : Int) ≠ 0 := by
  refine ⟨rfl, by decide, by decide⟩

/-- C8 (amended): the caching client's `UploadSwFile` uploads with the
descriptor's declared MIME type, defaulting to `application/octet-stream`
exactly when the declared type is empty, and includes the `ts`
modification-time hint exactly when `ModTime` is nonzero; the plain
client's `UploadSwFile` always uploads with `application/octet-stream` and
never includes a modification-time hint. -/
theorem claim_C8_amended (f : SwFile) (aresp : AssignResponse)
    (uresp : UploadResponse) :
    (∀ c, (UploadSwFile f aresp uresp).2.2 = some c →
      c.mimeType =
        (if f.mimeType.length = 0 then "application/octet-stream" else f.mimeType) ∧
      c.tsArg = (if f.modTime ≠ 0 then some (toString f.modTime) else none) ∧
      c.fileName = f.fileName) ∧
    (∀ c, (UploadSwFileOld f aresp uresp).2.2 = some c →
      c.mimeType = "application/octet-stream" ∧ c.tsArg = none) := by
  constructor
  · intro c hc
    cases ha : Assign aresp with
    | error e =>
      simp only [UploadSwFile, ha] at hc
      exact Option.noConfusion hc
    | ok ar =>
      cases uresp with
      | transportErr e =>
        simp only [UploadSwFile, ha] at hc
        injection hc with h
        subst h
        exact ⟨rfl, rfl, rfl⟩
      | undecodable e =>
        simp only [UploadSwFile, ha] at hc
        injection hc with h
        subst h
        exact ⟨rfl, rfl, rfl⟩
      | ok size etag =>
        simp only [UploadSwFile, ha] at hc
        split at hc <;>
          · injection hc with h
            subst h
            exact ⟨rfl, rfl, rfl⟩
  · intro c hc
    cases ha : Assign aresp with
    | error e =>
      simp only [UploadSwFileOld, ha] at hc
      exact Option.noConfusion hc
    | ok ar =>
      cases uresp with
      | transportErr e =>
        simp only [UploadSwFileOld, ha] at hc
        injection hc with h
        subst h
        exact ⟨rfl, rfl⟩
      | undecodable e =>
        simp only [UploadSwFileOld, ha] at hc
        injection hc with h
        subst h
        exact ⟨rfl, rfl⟩
      | ok size etag =>
        simp only [UploadSwFileOld, ha] at hc
        injection hc with h
        subst h
        exact ⟨rfl, rfl⟩

theorem claim_C8_amended_witness :
    (UploadSwFile ⟨"a.txt", 3, "text/plain", 5, "", "", "", "", ""⟩
        (AssignResponse.ok ⟨"3,01", "127.0.0.1:8080", "localhost:8080", 1, ""⟩)
        (UploadResponse.ok 3 "e")).2.2 =
      some ⟨"127.0.0.1:8080", "3,01", some "5", "a.txt", "text/plain"⟩ ∧
    "text/plain" =
      (if ("text/plain" : String).length = 0 then "application/octet-stream"
       else "text/plain") ∧
    some "5" = (if (5 : Int) ≠ 0 then some (toString (5 : Int)) else none) := by
  have h := (claim_C8_amended ⟨"a.txt", 3, "text/plain", 5, "", "", "", "", ""⟩
    (AssignResponse.ok ⟨"3,01", "127.0.0.1:8080", "localhost:8080", 1, ""⟩)
    (UploadResponse.ok 3 "e")).1
    ⟨"127.0.0.1:8080", "3,01", some "5", "a.txt", "text/plain"⟩ (by decide)
  exact ⟨by decide, h.1, h.2.1⟩

/-- C10: `UploadSwFile` (caching client) writes the assigned file id into
the descriptor before the upload is attempted, so on every failure after a
successful assign the descriptor's `FileID` holds the new identifier while
its `Etag` is untouched — the descriptor is not left unchanged on error. -/
theorem claim_C10 (f : SwFile) (ar : AssignResult) (aresp : AssignResponse)
    (uresp : UploadResponse) (e : GoError)
    (ha : Assign aresp = Except.ok ar)
    (hfail : (UploadSwFile f aresp uresp).1 = Except.error e) :
    (UploadSwFile f aresp uresp).2.1.fileID = ar.fileID ∧
    (UploadSwFile f aresp uresp).2.1.etag = f.etag ∧
    (∀ c, (UploadSwFile f aresp uresp).2.2 = some c → c.path = ar.fileID) ∧
    (ar.fileID ≠ f.fileID → (UploadSwFile f aresp uresp).2.1 ≠ f) := by
  cases uresp with
  | transportErr e' =>
    simp only [UploadSwFile, ha]
    refine ⟨trivial, trivial, ?_, ?_⟩
    · intro c hc
      injection hc with h
      subst h
      rfl
    · intro hne heq
      exact hne (by simpa using congrArg SwFile.fileID heq)
  | undecodable e' =>
    simp only [UploadSwFile, ha]
    refine ⟨trivial, trivial, ?_, ?_⟩
    · intro c hc
      injection hc with h
      subst h
      rfl
    · intro hne heq
      exact hne (by simpa using congrArg SwFile.fileID heq)
  | ok size etag =>
    by_cases hsz : f.fileSize ≠ size
    · simp only [UploadSwFile, ha, if_pos hsz]
      refine ⟨trivial, trivial, ?_, ?_⟩
      · intro c hc
        injection hc with h
        subst h
        rfl
      · intro hne heq
        exact hne (by simpa using congrArg SwFile.fileID heq)
    · simp only [UploadSwFile, ha, if_neg hsz] at hfail
      exact absurd hfail (by simp)

theorem claim_C10_witness :
    (UploadSwFile ⟨"a.txt", 100, "", 0, "", "", "", "old-id", ""⟩
        (AssignResponse.ok ⟨"3,01", "127.0.0.1:8080", "localhost:8080", 1, ""⟩)
        (UploadResponse.ok 90 "1d3b")).2.1.fileID = "3,01" ∧
    (UploadSwFile ⟨"a.txt", 100, "", 0, "", "", "", "old-id", ""⟩
        (AssignResponse.ok ⟨"3,01", "127.0.0.1:8080", "localhost:8080", 1, ""⟩)
        (UploadResponse.ok 90 "1d3b")).2.1.etag = "" ∧
    (UploadSwFile ⟨"a.txt", 100, "", 0, "", "", "", "old-id", ""⟩
        (AssignResponse.ok ⟨"3,01", "127.0.0.1:8080", "localhost:8080", 1, ""⟩)
        (UploadResponse.ok 90 "1d3b")).2.1 ≠
      ⟨"a.txt", 100, "", 0, "", "", "", "old-id", ""⟩ := by
  have h := claim_C10 ⟨"a.txt", 100, "", 0, "", "", "", "old-id", ""⟩
    ⟨"3,01", "127.0.0.1:8080", "localhost:8080", 1, ""⟩
    (AssignResponse.ok ⟨"3,01", "127.0.0.1:8080", "localhost:8080", 1, ""⟩)
    (UploadResponse.ok 90 "1d3b") (GoError.msg "wrong upload size")
    (by decide) (by decide)
  exact ⟨h.1, h.2.1, h.2.2.2 (by decide)⟩

theorem resolve_noCache_lookedUp (fileID : String) (c : VLCache)
    (resp : LookupResponse) (vls : VolumeLocations)
    (h : (GetVolumeLocationsFromFileID fileID false c resp).result = Except.ok vls) :
    (GetVolumeLocationsFromFileID fileID false c resp).lookedUp = true := by
  cases hp : getVolumeIDFromFileID fileID with
  | error e =>
    simp only [GetVolumeLocationsFromFileID, hp] at h
    exact absurd h (by simp)
  | ok vid =>
    cases hd : doLookup resp with
    | error e => simp [GetVolumeLocationsFromFileID, hp, hd]
    | ok lr =>
      by_cases hlen : lr.volumeLocations.length = 0
      · simp [GetVolumeLocationsFromFileID, hp, hd, hlen]
      · simp [GetVolumeLocationsFromFileID, hp, hd, hlen]

/-- C1: when the first data operation of `Download` or `DeleteFile` against
a resolved server fails with a transport error, exactly one further
resolve-select-operate cycle runs, its resolve called with `withCache`
forced to `false` and actually performing a master lookup (cache bypassed);
when the second data operation also fails, the second attempt's error is
returned and no third cycle occurs. -/
theorem claim_C1 (fileID : String) (cache : VLCache) :
    (∀ (env : DLEnv) (vls0 vls1 : VolumeLocations) (e1 e2 : GoError),
      (GetVolumeLocationsFromFileID fileID true cache (env.lookupResp 0)).result =
        Except.ok vls0 →
      (GetVolumeLocationsFromFileID fileID false
        (GetVolumeLocationsFromFileID fileID true cache (env.lookupResp 0)).cache
        (env.lookupResp 1)).result = Except.ok vls1 →
      env.downloadResult 0 = Except.error e1 →
      env.downloadResult 1 = Except.error e2 →
      (Download fileID cache env).1 = Except.error e2 ∧
      ∃ l0, (Download fileID cache env).2.map
          (fun cy => (cy.withCache, cy.lookedUp, cy.opURL.isSome)) =
        [(true, l0, true), (false, true, true)]) ∧
    (∀ (env : DelEnv) (vls0 vls1 : VolumeLocations) (e1 e2 : GoError),
      (GetVolumeLocationsFromFileID fileID true cache (env.lookupResp 0)).result =
        Except.ok vls0 →
      (GetVolumeLocationsFromFileID fileID false
        (GetVolumeLocationsFromFileID fileID true cache (env.lookupResp 0)).cache
        (env.lookupResp 1)).result = Except.ok vls1 →
      env.deleteResult 0 = Except.error e1 →
      env.deleteResult 1 = Except.error e2 →
      (DeleteFile fileID cache env).1 = some e2 ∧
      ∃ l0, (DeleteFile fileID cache env).2.map
          (fun cy => (cy.withCache, cy.lookedUp, cy.opURL.isSome)) =
        [(true, l0, true), (false, true, true)]) := by
  constructor
  · intro env vls0 vls1 e1 e2 h0 h1 hd0 hd1
    have hl1 := resolve_noCache_lookedUp fileID
      (GetVolumeLocationsFromFileID fileID true cache (env.lookupResp 0)).cache
      (env.lookupResp 1) vls1 h1
    constructor
    · simp only [Download, downloadLoop, h0, hd0, Nat.zero_add, h1, hd1]
    · refine ⟨(GetVolumeLocationsFromFileID fileID true cache (env.lookupResp 0)).lookedUp, ?_⟩
      simp only [Download, downloadLoop, h0, hd0, Nat.zero_add, h1, hd1,
        List.map_cons, List.map_nil, Option.isSome_some, hl1]
  · intro env vls0 vls1 e1 e2 h0 h1 hd0 hd1
    have hl1 := resolve_noCache_lookedUp fileID
      (GetVolumeLocationsFromFileID fileID true cache (env.lookupResp 0)).cache
      (env.lookupResp 1) vls1 h1
    constructor
    · simp only [DeleteFile, deleteLoop, h0, hd0, Nat.zero_add, h1, hd1]
    · refine ⟨(GetVolumeLocationsFromFileID fileID true cache (env.lookupResp 0)).lookedUp, ?_⟩
      simp only [DeleteFile, deleteLoop, h0, hd0, Nat.zero_add, h1, hd1,
        List.map_cons, List.map_nil, Option.isSome_some, hl1]

theorem claim_C1_witness :
    ((Download "3,ab" (fun _ => none)
        ⟨fun _ => LookupResponse.ok ⟨[⟨"u", "p"⟩], ""⟩, fun _ => 0,
         fun k => if k = 0 then Except.error (GoError.msg "timeout A")
                  else Except.error (GoError.msg "timeout B")⟩).1 =
      Except.error (GoError.msg "timeout B") ∧
    (∃ l0, (Download "3,ab" (fun _ => none)
        ⟨fun _ => LookupResponse.ok ⟨[⟨"u", "p"⟩], ""⟩, fun _ => 0,
         fun k => if k = 0 then Except.error (GoError.msg "timeout A")
                  else Except.error (GoError.msg "timeout B")⟩).2.map
          (fun cy => (cy.withCache, cy.lookedUp, cy.opURL.isSome)) =
        [(true, l0, true), (false, true, true)])) ∧
    ((DeleteFile "3,ab" (fun _ => none)
        ⟨fun _ => LookupResponse.ok ⟨[⟨"u", "p"⟩], ""⟩,
         fun k => if k = 0 then Except.error (GoError.msg "timeout A")
                  else Except.error (GoError.msg "timeout B")⟩).1 =
      some (GoError.msg "timeout B") ∧
    (∃ l0, (DeleteFile "3,ab" (fun _ => none)
        ⟨fun _ => LookupResponse.ok ⟨[⟨"u", "p"⟩], ""⟩,
         fun k => if k = 0 then Except.error (GoError.msg "timeout A")
                  else Except.error (GoError.msg "timeout B")⟩).2.map
          (fun cy => (cy.withCache, cy.lookedUp, cy.opURL.isSome)) =
        [(true, l0, true), (false, true, true)])) := by
  have h := claim_C1 "3,ab" (fun _ => none)
  constructor
  · exact h.1
      ⟨fun _ => LookupResponse.ok ⟨[⟨"u", "p"⟩], ""⟩, fun _ => 0,
       fun k => if k = 0 then Except.error (GoError.msg "timeout A")
                else Except.error (GoError.msg "timeout B")⟩
      [⟨"u", "p"⟩] [⟨"u", "p"⟩] (GoError.msg "timeout A") (GoError.msg "timeout B")
      rfl rfl rfl rfl
  · exact h.2
      ⟨fun _ => LookupResponse.ok ⟨[⟨"u", "p"⟩], ""⟩,
       fun k => if k = 0 then Except.error (GoError.msg "timeout A")
                else Except.error (GoError.msg "timeout B")⟩
      [⟨"u", "p"⟩] [⟨"u", "p"⟩] (GoError.msg "timeout A") (GoError.msg "timeout B")
      rfl rfl rfl rfl

end Swfs
